import Mathlib

/-!
Verification of the Red Hat Console agent wrapper (`main.py`) against its
natural-language specification.  The Python code is shallowly embedded:
JSON values become an inductive `Json` type, the response-normalisation
logic of `chat_completion` becomes `extract_content`, bearer
authentication becomes `verify_bearer_token`, query extraction becomes
`extract_query`, and the streaming generator becomes
`simulate_streaming_response`.  Python exceptions are modelled with
`Except`; values generated at run time (UUIDs, timestamps) and the
network call are passed in as parameters.
-/

/-- Parsed JSON values, as produced by `response.json()` in Python.
Numbers are modelled as integers (the payloads at issue carry no
floats); dictionaries are key-ordered association lists with unique
keys, mirroring Python `dict`. -/
inductive Json where
  | null
  | bool (b : Bool)
  | num (n : Int)
  | str (s : String)
  | arr (elems : List Json)
  | obj (fields : List (String × Json))
deriving Repr

/-- First-match lookup in an association list, i.e. Python `d[k]` /
`d.get(k)` on a dict with unique keys. -/
def lookupKey : List (String × Json) → String → Option Json
  | [], _ => none
  | (k, v) :: rest, key => if k = key then some v else lookupKey rest key

/-- Python truthiness of a JSON value (`if options:`). -/
def truthy : Json → Bool
  | .null => false
  | .bool b => b
  | .num n => n != 0
  | .str s => s != ""
  | .arr elems => !elems.isEmpty
  | .obj fields => !fields.isEmpty

/-- Python iteration over a JSON value (`for x in options`): lists yield
their elements, strings their one-character substrings, dicts their
keys; anything else raises `TypeError` (modelled as `Except.error`). -/
def pyIter : Json → Except Unit (List Json)
  | .arr elems => .ok elems
  | .str s => .ok (s.data.map fun c => .str (String.mk [c]))
  | .obj fields => .ok (fields.map fun kv => .str kv.1)
  | _ => .error ()

mutual

/-- Python `repr` of a parsed-JSON value, as used by `str()` on
containers: dicts render as `\x7b'k': v\x7d`, lists as `[v, ...]`,
strings single-quoted, `True`/`False`/`None` capitalised.  (String
escaping inside `repr` is not modelled; the payloads examined contain
no quotes.) -/
def pyRepr : Json → String
  | .null => "None"
  | .bool true => "True"
  | .bool false => "False"
  | .num n => toString n
  | .str s => "'" ++ s ++ "'"
  | .arr elems => "[" ++ pyReprList elems ++ "]"
  | .obj fields => "\x7b" ++ pyReprFields fields ++ "\x7d"

/-- Comma-separated `repr` of list elements. -/
def pyReprList : List Json → String
  | [] => ""
  | [x] => pyRepr x
  | x :: y :: rest => pyRepr x ++ ", " ++ pyReprList (y :: rest)

/-- Comma-separated `repr` of dict entries. -/
def pyReprFields : List (String × Json) → String
  | [] => ""
  | [(k, v)] => "'" ++ k ++ "': " ++ pyRepr v
  | (k, v) :: e :: rest => "'" ++ k ++ "': " ++ pyRepr v ++ ", " ++ pyReprFields (e :: rest)

end

/-- Python `str()` of a parsed-JSON value: the string itself when it is
a string, `repr` otherwise.  Used both for the raw-payload fallback
`str(response_data)` and for f-string interpolation of option texts. -/
def pyStr : Json → String
  | .str s => s
  | j => pyRepr j

/-- `response_item.get('type') == 'OPTIONS'`: true exactly when the
`type` field is present and is the string `"OPTIONS"` (Python `==`
between a non-string and a string is `False`). -/
def isOPTIONS : Option Json → Bool
  | some (.str s) => s = "OPTIONS"
  | _ => false

/-- The option-rendering loop of `chat_completion`
(`for i, option in enumerate(options, 1): ...`), accumulating into
`response_content`.  `option.get` on a non-dict raises
`AttributeError`, modelled as `Except.error`.  `i` is the 1-based
index of the next option. -/
def optLoop (i : Nat) (acc : String) : List Json → Except Unit String
  | [] => .ok acc
  | opt :: rest =>
    match opt with
    | .obj optFields =>
      let optionText : String :=
        match lookupKey optFields "text" with
        | some t => pyStr t
        | none => "Option " ++ toString i
      optLoop (i + 1) (acc ++ "\n" ++ toString i ++ ". " ++ optionText) rest
    | _ => .error ()

/-- The elements Python `list.extend(s)` adds for a string `s`: its
one-character substrings.  This is what `response_content += "..."`
does when `response_content` is a list (`list += str` extends in
place). -/
def charsOfStr (s : String) : List Json :=
  s.data.map fun ch => Json.str (String.mk [ch])

/-- The option-rendering loop when `response_content` is a list:
each `response_content += f"\n\x7bi\x7d. \x7boption_text\x7d"` extends
the list with the characters of the appended text.  `option.get` on a
non-dict still raises `AttributeError`. -/
def optLoopList (i : Nat) (acc : List Json) : List Json → Except Unit (List Json)
  | [] => .ok acc
  | opt :: rest =>
    match opt with
    | .obj optFields =>
      let optionText : String :=
        match lookupKey optFields "text" with
        | some t => pyStr t
        | none => "Option " ++ toString i
      optLoopList (i + 1) (acc ++ charsOfStr ("\n" ++ toString i ++ ". " ++ optionText)) rest
    | _ => .error ()

/-- The response-normalisation block of `chat_completion`
(`main.py` lines 256-275), applied to the parsed backend payload
`response_data`.  Returns the `response_content` value, or
`Except.error` when the Python code would raise inside the enclosing
`try` (surfacing as the 500 "Invalid response" error).  The content is
a `Json` value because `response_item.get('text', ...)` can return a
non-string.  Under the OPTIONS branch, `response_content += ...`
concatenates when the content is a string, extends in place with the
appended text's characters when it is a list (Python `list += str`),
and raises `TypeError` for any other type. -/
def extract_content (response_data : Json) : Except Unit Json :=
  match response_data with
  | .obj kvs =>
    match lookupKey kvs "response" with
    | some (.arr (first :: _)) =>
      match first with
      | .obj itemFields =>
        let response_content : Json :=
          (lookupKey itemFields "text").getD (.str "No response text")
        match lookupKey itemFields "options" with
        | some options =>
          if isOPTIONS (lookupKey itemFields "type") && truthy options then
            match response_content with
            | .str base =>
              match pyIter options with
              | .ok elems =>
                match optLoop 1 (base ++ "\n\nOptions:") elems with
                | .ok s => .ok (.str s)
                | .error e => .error e
              | .error e => .error e
            | .arr items =>
              match pyIter options with
              | .ok elems =>
                match optLoopList 1 (items ++ charsOfStr "\n\nOptions:") elems with
                | .ok out => .ok (.arr out)
                | .error e => .error e
              | .error e => .error e
            | _ => .error ()
          else
            .ok response_content
        | none => .ok response_content
      | _ => .ok (.str (pyStr response_data))
    | _ => .ok (.str (pyStr response_data))
  | _ => .ok (.str (pyStr response_data))

example : extract_content (.obj [("response", .arr [.obj [("text", .str "Hello"), ("type", .str "TEXT")]])]) = .ok (.str "Hello") := by rfl

example : extract_content (.obj [("response", .arr [.obj [("text", .str "Pick"), ("type", .str "OPTIONS"), ("options", .arr [.obj [("text", .str "A")], .obj [("text", .str "B")]])]])]) = .ok (.str "Pick\n\nOptions:\n1. A\n2. B") := by rfl

example : extract_content (.num 3) = .ok (.str "3") := by rfl

example : extract_content (.obj [("response", .arr [.obj [("type", .str "OPTIONS"), ("options", .arr [.num 1]), ("text", .str "hi")]])]) = .error () := by rfl

example : extract_content (.obj [("response", .arr [.obj [("text", .arr [.str "x"]), ("type", .str "OPTIONS"), ("options", .arr [.obj [("text", .str "A")]])]])]) = .ok (.arr (([.str "x"] ++ charsOfStr "\n\nOptions:") ++ charsOfStr "\n1. A")) := by rfl

/-- The 401 error raised by `verify_bearer_token`: its status code, its
`detail` string, and whether a `WWW-Authenticate: Bearer` header is
attached (it always is in the source). -/
structure AuthFailure where
  status_code : Nat
  detail : String
  wwwAuthenticateBearer : Bool
deriving Repr, DecidableEq

/-- Character-list prefix test, i.e. Python `s.startswith(pre)`. -/
def charsStartWith : List Char → List Char → Bool
  | _, [] => true
  | [], _ :: _ => false
  | c :: cs, p :: ps => c = p && charsStartWith cs ps

/-- Python `s.startswith(pre)` on strings. -/
def pyStartsWith (s pre : String) : Bool :=
  charsStartWith s.data pre.data

/-- Python `s[n:]`: drop the first `n` characters. -/
def pyDropChars (s : String) (n : Nat) : String :=
  String.mk (s.data.drop n)

/-- `verify_bearer_token` (`main.py` lines 159-183).  `authorization`
is the raw `Authorization` header value, `none` when absent; `required`
is the configured `REQUIRED_BEARER_TOKEN`.  Python `if not
authorization` treats both `None` and the empty string as missing. -/
def verify_bearer_token (required : String) (authorization : Option String) : Except AuthFailure String :=
  match authorization with
  | none => .error ⟨401, "Authorization header required", true⟩
  | some a =>
    if a = "" then
      .error ⟨401, "Authorization header required", true⟩
    else if ¬ pyStartsWith a "Bearer " then
      .error ⟨401, "Authorization header must start with 'Bearer '", true⟩
    else
      let token := pyDropChars a 7
      if token ≠ required then
        .error ⟨401, "Invalid bearer token", true⟩
      else
        .ok token

/-- A chat message as validated by pydantic: `Dict[str, Any]`, i.e. a
dict of JSON values (pydantic rejects non-dict entries before the
handler runs). -/
abbrev Msg := List (String × Json)

/-- How query extraction can fail: an uncaught `KeyError` from
`msg["role"]` or `msg["content"]` (surfacing as a 500-class server
error), or the explicit 400 `HTTPException` when no user message
exists. -/
inductive QueryFailure where
  | keyError
  | noUserMessage
deriving Repr, DecidableEq

/-- Python `==` between a JSON value and a string literal: true only
when the value is that string. -/
def jsonEqStr (j : Json) (s : String) : Bool :=
  match j with
  | .str t => t = s
  | _ => false

/-- The list comprehension `[msg for msg in request.messages if
msg["role"] == "user"]`: evaluates `msg["role"]` for every message, so
any message missing the key raises `KeyError`. -/
def collectUserMessages : List Msg → Except Unit (List Msg)
  | [] => .ok []
  | m :: rest =>
    match lookupKey m "role" with
    | none => .error ()
    | some r =>
      match collectUserMessages rest with
      | .error e => .error e
      | .ok us => .ok (if jsonEqStr r "user" then m :: us else us)

/-- Query extraction in `chat_completion` (`main.py` lines 235-240):
filter for user-role messages, fail with the 400 error when none
exist, then read `user_messages[-1]["content"]`. -/
def extract_query (messages : List Msg) : Except QueryFailure Json :=
  match collectUserMessages messages with
  | .error _ => .error .keyError
  | .ok users =>
    match users.getLast? with
    | none => .error .noUserMessage
    | some lastUser =>
      match lookupKey lastUser "content" with
      | none => .error .keyError
      | some content => .ok content

/-- One `chat.completion.chunk` dict as built by
`simulate_streaming_response`.  `delta = none` models the empty delta
`\x7b\x7d`; `delta = some v` models `\x7b"content": v\x7d`. -/
structure ChatChunk where
  id : String
  object : String
  created : Nat
  model : String
  index : Nat
  delta : Option Json
  finish_reason : Option String
deriving Repr

/-- One item of the emitted server-sent-event sequence: a serialised
data frame carrying a chunk, or the literal `[DONE]` sentinel line. -/
inductive StreamFrame where
  | data (chunk : ChatChunk)
  | done
deriving Repr

mutual

/-- `json.dumps` of a parsed-JSON value with Python's default
separators (`", "` and `": "`).  Escaping inside string literals is
limited to the escapes that can occur here. -/
def jsonDumps : Json → String
  | .null => "null"
  | .bool true => "true"
  | .bool false => "false"
  | .num n => toString n
  | .str s => "\"" ++ jsonEscape s.data ++ "\""
  | .arr elems => "[" ++ jsonDumpsList elems ++ "]"
  | .obj fields => "\x7b" ++ jsonDumpsFields fields ++ "\x7d"

/-- Comma-separated `json.dumps` of list elements. -/
def jsonDumpsList : List Json → String
  | [] => ""
  | [x] => jsonDumps x
  | x :: y :: rest => jsonDumps x ++ ", " ++ jsonDumpsList (y :: rest)

/-- Comma-separated `json.dumps` of dict entries. -/
def jsonDumpsFields : List (String × Json) → String
  | [] => ""
  | [(k, v)] => "\"" ++ jsonEscape k.data ++ "\": " ++ jsonDumps v
  | (k, v) :: e :: rest => "\"" ++ jsonEscape k.data ++ "\": " ++ jsonDumps v ++ ", " ++ jsonDumpsFields (e :: rest)

/-- JSON string escaping for the characters `json.dumps` escapes that
occur in the modelled payloads. -/
def jsonEscape : List Char → String
  | [] => ""
  | c :: rest =>
    (if c = '"' then "\\\""
     else if c = '\\' then "\\\\"
     else if c = '\n' then "\\n"
     else if c = '\t' then "\\t"
     else String.mk [c]) ++ jsonEscape rest

end

/-- The JSON dict serialised for a chunk: the literal key order used in
`simulate_streaming_response`. -/
def chunkJson (c : ChatChunk) : Json :=
  .obj [("id", .str c.id),
        ("object", .str c.object),
        ("created", .num c.created),
        ("model", .str c.model),
        ("choices", .arr [.obj
          ([("index", .num c.index)] ++
           (match c.delta with
            | some v => [("delta", .obj [("content", v)])]
            | none => [("delta", .obj [])]) ++
           [("finish_reason", match c.finish_reason with
             | some r => .str r
             | none => .null)])])]

/-- Serialisation of one emitted frame:
`f"data: \x7bjson.dumps(chunk)\x7d\n\n"` for a chunk and the literal
`"data: [DONE]\n\n"` for the sentinel. -/
def renderFrame : StreamFrame → String
  | .data c => "data: " ++ jsonDumps (chunkJson c) ++ "\n\n"
  | .done => "data: [DONE]\n\n"

/-- Values the handler draws from its environment per request: the
8-character UUID fragment and the `int(time.time())` timestamp used to
build completion ids.  Passed in explicitly since they are generated
effects. -/
structure GenMeta where
  uuid8 : String
  created : Nat
deriving Repr

/-- The content chunk built in the `try` block of
`simulate_streaming_response` (`main.py` lines 321-334). -/
def contentChunk (meta : GenMeta) (response_content : Json) : ChatChunk :=
  { id := "chatcmpl-" ++ meta.uuid8
    object := "chat.completion.chunk"
    created := meta.created
    model := "red-hat-console-agent"
    index := 0
    delta := some response_content
    finish_reason := none }

/-- The final chunk built in the `try` block (`main.py` lines 337-350). -/
def finishChunk (meta : GenMeta) : ChatChunk :=
  { id := "chatcmpl-" ++ meta.uuid8
    object := "chat.completion.chunk"
    created := meta.created
    model := "red-hat-console-agent"
    index := 0
    delta := none
    finish_reason := some "stop" }

/-- The chunk yielded by the `except` branch (`main.py` lines 357-363):
delta content `"Error: " ++ msg` and `finish_reason "stop"` in one
chunk. -/
def errorChunk (meta : GenMeta) (msg : String) : ChatChunk :=
  { id := "chatcmpl-" ++ meta.uuid8
    object := "chat.completion.chunk"
    created := meta.created
    model := "red-hat-console-agent"
    index := 0
    delta := some (.str ("Error: " ++ msg))
    finish_reason := some "stop" }

/-- `simulate_streaming_response` (`main.py` lines 312-351) on the
normal path: the whole content in one chunk, then the finish chunk,
then the `[DONE]` sentinel. -/
def simulate_streaming_response (response_content : Json) (meta : GenMeta) : List StreamFrame :=
  [.data (contentChunk meta response_content),
   .data (finishChunk meta),
   .done]

/-- `simulate_streaming_response` under generator semantics with an
injected internal error: `failure = some (k, msg)` means an exception
with message `msg` is raised inside the `try` block after the first
`k` yields have been delivered (`k` is clamped to the three yields of
the block); the `except` branch (`main.py` lines 355-365) then yields
the error chunk and a final `[DONE]`.  `failure = none` is the normal
path. -/
def simulate_streaming_response_withError (response_content : Json) (meta : GenMeta)
    (failure : Option (Nat × String)) : List StreamFrame :=
  match failure with
  | none => simulate_streaming_response response_content meta
  | some (k, msg) =>
    (simulate_streaming_response response_content meta).take k ++
      [.data (errorChunk meta msg), .done]

/-- The non-streaming chat-completion body (`main.py` lines 295-310). -/
structure ChatCompletion where
  id : String
  object : String
  created : Nat
  model : String
  choiceIndex : Nat
  messageRole : String
  messageContent : Json
  finish_reason : String
deriving Repr

/-- Outcome of the backend call `rh_client.send_message(query)`:
`noResponse` when `requests.post` raised and the client returned
`None`; otherwise the HTTP status together with the result of
`response.json()` (`Except.error` when the body is not JSON). -/
inductive BackendResult where
  | noResponse
  | httpResponse (status : Nat) (body : Except Unit Json)

/-- The observable outcome of the `/v1/chat` handler. -/
inductive ChatOutcome where
  | httpError (status : Nat) (detail : String)
  | serverError
  | completion (c : ChatCompletion)
  | streamed (frames : List StreamFrame)

/-- The stages of `chat_completion` after the query is known
(`main.py` lines 246-310): call the backend, reject `None` or non-200,
parse and normalise, then branch on `stream`. -/
def backendStage (query : Json) (stream : Bool) (backend : Json → BackendResult)
    (meta : GenMeta) : ChatOutcome :=
  match backend query with
  | .noResponse => .httpError 500 "Failed to get response from Red Hat Console API"
  | .httpResponse status body =>
    if status ≠ 200 then
      .httpError 500 "Failed to get response from Red Hat Console API"
    else
      match body with
      | .error _ => .httpError 500 "Invalid response from Red Hat Console API"
      | .ok response_data =>
        match extract_content response_data with
        | .error _ => .httpError 500 "Invalid response from Red Hat Console API"
        | .ok response_content =>
          if stream then
            .streamed (simulate_streaming_response response_content meta)
          else
            .completion
              { id := "chatcmpl-" ++ meta.uuid8
                object := "chat.completion"
                created := meta.created
                model := "red-hat-console-agent"
                choiceIndex := 0
                messageRole := "assistant"
                messageContent := response_content
                finish_reason := "stop" }

/-- The `/v1/chat` handler `chat_completion` (`main.py` lines 213-310):
bearer authentication (via the `Depends` on `verify_bearer_token`),
query extraction, backend call, normalisation, response shaping.
`backend` is the network as a function from the query to its result. -/
def chat_completion (required : String) (authorization : Option String)
    (messages : List Msg) (stream : Bool) (backend : Json → BackendResult)
    (meta : GenMeta) : ChatOutcome :=
  match verify_bearer_token required authorization with
  | .error e => .httpError e.status_code e.detail
  | .ok _ =>
    match extract_query messages with
    | .error .keyError => .serverError
    | .error .noUserMessage => .httpError 400 "No user message found"
    | .ok query => backendStage query stream backend meta

example : renderFrame .done = "data: [DONE]\n\n" := by rfl

example : verify_bearer_token "tok" (some "Bearer tok") = .ok "tok" := by rfl

example : verify_bearer_token "tok" (some "Bearer  tok") = .error ⟨401, "Invalid bearer token", true⟩ := by rfl

example : extract_query [[("role", .str "user")]] = .error .keyError := by rfl

example : extract_query [[("content", .str "hi")]] = .error .keyError := by rfl

example : extract_query [[("role", .str "user"), ("content", .str "a")], [("role", .str "user"), ("content", .str "b")]] = .ok (.str "b") := by rfl

/-- The user-role messages, as a filter (what the comprehension
computes when every message carries a `role` key). -/
def userMessages (messages : List Msg) : List Msg :=
  messages.filter fun m =>
    match lookupKey m "role" with
    | some r => jsonEqStr r "user"
    | none => false

/-- The spec's rendering of an options list: one line per option,
`"{index}. {option text}"` with 1-based indices starting at `i`, and
`"Option {index}"` for a mapping without a `text` field. -/
def renderedOptions (i : Nat) : List Json → String
  | [] => ""
  | opt :: rest =>
    (match opt with
     | .obj optFields =>
       "\n" ++ toString i ++ ". " ++
         (match lookupKey optFields "text" with
          | some t => pyStr t
          | none => "Option " ++ toString i)
     | _ => "") ++ renderedOptions (i + 1) rest

/-- Is the value a JSON object (Python dict)? -/
def isObjJson : Json → Bool
  | .obj _ => true
  | _ => false

lemma isObjJson_iff (j : Json) : isObjJson j = true ↔ ∃ fields, j = Json.obj fields := by
  cases j <;> simp [isObjJson]

lemma optLoop_all_obj (opts : List Json) (i : Nat) (acc : String)
    (h : ∀ o ∈ opts, isObjJson o = true) :
    optLoop i acc opts = .ok (acc ++ renderedOptions i opts) := by
  induction opts generalizing i acc with
  | nil => simp [optLoop, renderedOptions]
  | cons o rest ih =>
    obtain ⟨fields, rfl⟩ := (isObjJson_iff o).mp (h o (List.mem_cons_self o rest))
    have hrest : ∀ x ∈ rest, isObjJson x = true := fun x hx => h x (List.mem_cons_of_mem _ hx)
    simp only [optLoop, renderedOptions, ih _ _ hrest]
    cases hx : lookupKey fields "text" <;> simp [hx, String.append_assoc]

lemma collectUserMessages_eq_filter (messages : List Msg)
    (hroles : ∀ m ∈ messages, (lookupKey m "role").isSome) :
    collectUserMessages messages = .ok (userMessages messages) := by
  induction messages with
  | nil => simp [collectUserMessages, userMessages]
  | cons m rest ih =>
    obtain ⟨r, hr⟩ := Option.isSome_iff_exists.mp (hroles m (List.mem_cons_self m rest))
    have hrest : ∀ x ∈ rest, (lookupKey x "role").isSome :=
      fun x hx => hroles x (List.mem_cons_of_mem _ hx)
    simp only [collectUserMessages, hr, ih hrest, userMessages, List.filter_cons]

lemma collectUserMessages_missing_role (messages : List Msg)
    (h : ∃ m ∈ messages, lookupKey m "role" = none) :
    collectUserMessages messages = .error () := by
  induction messages with
  | nil => simp at h
  | cons m rest ih =>
    obtain ⟨x, hx, hnone⟩ := h
    rcases List.mem_cons.mp hx with rfl | hxrest
    · simp [collectUserMessages, hnone]
    · cases hr : lookupKey m "role" with
      | none => simp [collectUserMessages, hr]
      | some r => simp [collectUserMessages, hr, ih ⟨x, hxrest, hnone⟩]

/-- C1.  For every normalized content value, the streaming emulator
emits exactly two data frames and then the `[DONE]` sentinel, in that
order: the first frame's delta carries the whole content with a null
finish reason, the second carries an empty delta with finish reason
"stop", both frames share the same id and created timestamp, and the
sentinel serialises as the literal `"data: [DONE]\n\n"`. -/
theorem c1_streaming_two_frames_then_sentinel (content : Json) (meta : GenMeta) :
    simulate_streaming_response content meta =
      [StreamFrame.data
         { id := "chatcmpl-" ++ meta.uuid8
           object := "chat.completion.chunk"
           created := meta.created
           model := "red-hat-console-agent"
           index := 0
           delta := some content
           finish_reason := none },
       StreamFrame.data
         { id := "chatcmpl-" ++ meta.uuid8
           object := "chat.completion.chunk"
           created := meta.created
           model := "red-hat-console-agent"
           index := 0
           delta := none
           finish_reason := some "stop" },
       StreamFrame.done] ∧
    renderFrame StreamFrame.done = "data: [DONE]\n\n" :=
  ⟨rfl, rfl⟩

/-- C2.  A backend reply whose first `response` item is a mapping of
type "TEXT" normalises to that item's `text` field verbatim: no
"Options:" suffix is appended. -/
theorem c2_text_reply_verbatim (kvs itemFields : List (String × Json))
    (rest : List Json) (t : String)
    (hresp : lookupKey kvs "response" = some (.arr (.obj itemFields :: rest)))
    (htype : lookupKey itemFields "type" = some (.str "TEXT"))
    (htext : lookupKey itemFields "text" = some (.str t)) :
    extract_content (.obj kvs) = .ok (.str t) := by
  simp only [extract_content, hresp, htext]
  cases hopt : lookupKey itemFields "options" <;>
    simp [hopt, htype, isOPTIONS]

/-- Witness for C2 at a concrete payload. -/
theorem c2_text_reply_verbatim_witness :
    extract_content (.obj [("response", .arr [.obj [("text", .str "Hello"), ("type", .str "TEXT")]])]) =
      .ok (.str "Hello") :=
  c2_text_reply_verbatim _ _ _ _ rfl rfl rfl

/-- C3.  A backend reply whose first `response` item has type
"OPTIONS" and a non-empty options list normalises to the base text
followed by "\n\nOptions:" and one line per option, `"{index}. {option
text}"` with 1-based indices, a mapping without a `text` field
rendering as `"Option {index}"`. -/
theorem c3_options_rendering (kvs itemFields : List (String × Json))
    (rest opts : List Json) (base : String)
    (hresp : lookupKey kvs "response" = some (.arr (.obj itemFields :: rest)))
    (htype : lookupKey itemFields "type" = some (.str "OPTIONS"))
    (htext : lookupKey itemFields "text" = some (.str base))
    (hopts : lookupKey itemFields "options" = some (.arr opts))
    (hne : opts ≠ [])
    (hobj : ∀ o ∈ opts, isObjJson o = true) :
    extract_content (.obj kvs) =
      .ok (.str (base ++ "\n\nOptions:" ++ renderedOptions 1 opts)) := by
  have hloop := optLoop_all_obj opts 1 (base ++ "\n\nOptions:") hobj
  simp [extract_content, hresp, htext, hopts, htype, isOPTIONS, truthy, pyIter, hne,
    hloop, String.append_assoc]

/-- Witness for C3 at the spec's example options `A`, `B`. -/
theorem c3_options_rendering_witness :
    extract_content (.obj [("response", .arr [.obj
        [("text", .str "Pick"), ("type", .str "OPTIONS"),
         ("options", .arr [.obj [("text", .str "A")], .obj [("text", .str "B")]])]])]) =
      .ok (.str "Pick\n\nOptions:\n1. A\n2. B") := by
  have h := c3_options_rendering
    [("response", .arr [.obj
        [("text", .str "Pick"), ("type", .str "OPTIONS"),
         ("options", .arr [.obj [("text", .str "A")], .obj [("text", .str "B")]])]])]
    [("text", .str "Pick"), ("type", .str "OPTIONS"),
     ("options", .arr [.obj [("text", .str "A")], .obj [("text", .str "B")]])]
    [] [.obj [("text", .str "A")], .obj [("text", .str "B")]] "Pick"
    rfl rfl rfl rfl (List.cons_ne_nil _ _) (by decide)
  simpa [renderedOptions, pyStr, lookupKey] using h

/-- Does the payload match the shape `chat_completion` extracts from:
a dict whose `response` key holds a non-empty list whose first element
is a dict?  Anything else takes the raw-dump fallback. -/
def wellShapedPayload : Json → Bool
  | .obj kvs =>
    match lookupKey kvs "response" with
    | some (.arr (first :: _)) => isObjJson first
    | _ => false
  | _ => false

/-- Is the OPTIONS-appending branch entered for this first response
item?  Mirrors `response_item.get('type') == 'OPTIONS' and 'options'
in response_item` together with the inner `if options:` truthiness
test. -/
def optionsBranchActive (itemFields : List (String × Json)) : Bool :=
  match lookupKey itemFields "options" with
  | some options => isOPTIONS (lookupKey itemFields "type") && truthy options
  | none => false

/-- Is the base content a string or a list once the `'No response
text'` default is applied?  Those are the two types for which
`response_content += <str>` succeeds (concatenation resp. in-place
extension); any other type raises `TypeError`. -/
def textFieldSafe (itemFields : List (String × Json)) : Bool :=
  match (lookupKey itemFields "text").getD (.str "No response text") with
  | .str _ => true
  | .arr _ => true
  | _ => false

/-- Sufficient condition for normalisation not to raise: either the
OPTIONS branch is not entered, or the base content is a string or a
list and the options value is a list all of whose entries are
mappings. -/
def safeOptionsPayload : Json → Bool
  | .obj kvs =>
    match lookupKey kvs "response" with
    | some (.arr (.obj itemFields :: _)) =>
      !optionsBranchActive itemFields ||
        (textFieldSafe itemFields &&
          match lookupKey itemFields "options" with
          | some (.arr opts) => opts.all isObjJson
          | _ => false)
    | _ => true
  | _ => true

lemma optLoopList_all_obj (opts : List Json) (i : Nat) (acc : List Json)
    (h : ∀ o ∈ opts, isObjJson o = true) :
    ∃ out, optLoopList i acc opts = .ok out := by
  induction opts generalizing i acc with
  | nil => exact ⟨acc, rfl⟩
  | cons o rest ih =>
    obtain ⟨fields, rfl⟩ := (isObjJson_iff o).mp (h o (List.mem_cons_self o rest))
    have hrest : ∀ x ∈ rest, isObjJson x = true := fun x hx => h x (List.mem_cons_of_mem _ hx)
    simp only [optLoopList]
    exact ih _ _ hrest

lemma extract_content_fallback (payload : Json)
    (h : wellShapedPayload payload = false) :
    extract_content payload = .ok (.str (pyStr payload)) := by
  cases payload with
  | obj kvs =>
    rcases hr : lookupKey kvs "response" with _ | j
    · simp [extract_content, hr]
    · cases j with
      | arr elems =>
        rcases elems with _ | ⟨first, rest⟩
        · simp [extract_content, hr]
        · cases first with
          | obj itemFields =>
            rw [wellShapedPayload] at h
            simp [hr, isObjJson] at h
          | null => simp [extract_content, hr]
          | bool b => simp [extract_content, hr]
          | num n => simp [extract_content, hr]
          | str s => simp [extract_content, hr]
          | arr xs => simp [extract_content, hr]
      | null => simp [extract_content, hr]
      | bool b => simp [extract_content, hr]
      | num n => simp [extract_content, hr]
      | str s => simp [extract_content, hr]
      | obj fs => simp [extract_content, hr]
  | null => simp [extract_content]
  | bool b => simp [extract_content]
  | num n => simp [extract_content]
  | str s => simp [extract_content]
  | arr elems => simp [extract_content]

lemma extract_content_safe_isOk (payload : Json)
    (h : safeOptionsPayload payload = true) :
    ∃ content, extract_content payload = .ok content := by
  by_cases hw : wellShapedPayload payload = true
  case neg =>
    exact ⟨_, extract_content_fallback payload (Bool.eq_false_iff.mpr hw)⟩
  case pos =>
    cases payload with
    | obj kvs =>
      rcases hr : lookupKey kvs "response" with _ | j
      · rw [wellShapedPayload, hr] at hw; simp at hw
      · cases j with
        | arr elems =>
          rcases elems with _ | ⟨first, rest⟩
          · rw [wellShapedPayload, hr] at hw; simp at hw
          · cases first with
            | obj itemFields =>
              rcases ho : lookupKey itemFields "options" with _ | options
              · exact ⟨(lookupKey itemFields "text").getD (.str "No response text"),
                  by simp [extract_content, hr, ho]⟩
              · by_cases hc : (isOPTIONS (lookupKey itemFields "type") && truthy options) = true
                · have hact : optionsBranchActive itemFields = true := by
                    simp only [optionsBranchActive, ho]
                    exact hc
                  rw [safeOptionsPayload, hr] at h
                  simp only [hact, Bool.not_true, Bool.false_or, Bool.and_eq_true] at h
                  obtain ⟨htext, hopts⟩ := h
                  rw [ho] at hopts
                  cases options with
                  | arr opts =>
                    have hopts2 : opts.all isObjJson = true := hopts
                    have hall : ∀ o ∈ opts, isObjJson o = true := by
                      simpa using List.all_eq_true.mp hopts2
                    have hbase : (∃ base,
                        (lookupKey itemFields "text").getD (.str "No response text") =
                          .str base) ∨
                        (∃ items,
                        (lookupKey itemFields "text").getD (.str "No response text") =
                          .arr items) := by
                      rw [textFieldSafe] at htext
                      rcases hv : (lookupKey itemFields "text").getD (.str "No response text")
                        with _ | b | n | base | xs | fs <;> rw [hv] at htext <;>
                        first
                        | exact Bool.noConfusion htext
                        | exact Or.inl ⟨_, rfl⟩
                        | exact Or.inr ⟨_, rfl⟩
                    rcases hbase with ⟨base, hbase⟩ | ⟨items, hbase⟩
                    · refine ⟨.str (base ++ "\n\nOptions:" ++ renderedOptions 1 opts), ?_⟩
                      simp [extract_content, hr, ho, hc, hbase, pyIter,
                        optLoop_all_obj opts 1 (base ++ "\n\nOptions:") hall,
                        String.append_assoc]
                    · obtain ⟨out, hout⟩ :=
                        optLoopList_all_obj opts 1 (items ++ charsOfStr "\n\nOptions:") hall
                      refine ⟨.arr out, ?_⟩
                      simp [extract_content, hr, ho, hc, hbase, pyIter, hout]
                  | null => exact Bool.noConfusion hopts
                  | bool b => exact Bool.noConfusion hopts
                  | num n => exact Bool.noConfusion hopts
                  | str s => exact Bool.noConfusion hopts
                  | obj fs => exact Bool.noConfusion hopts
                · exact ⟨(lookupKey itemFields "text").getD (.str "No response text"),
                    by simp [extract_content, hr, ho, hc]⟩
            | null => rw [wellShapedPayload, hr] at hw; simp [isObjJson] at hw
            | bool b => rw [wellShapedPayload, hr] at hw; simp [isObjJson] at hw
            | num n => rw [wellShapedPayload, hr] at hw; simp [isObjJson] at hw
            | str s => rw [wellShapedPayload, hr] at hw; simp [isObjJson] at hw
            | arr xs => rw [wellShapedPayload, hr] at hw; simp [isObjJson] at hw
        | null => rw [wellShapedPayload, hr] at hw; simp at hw
        | bool b => rw [wellShapedPayload, hr] at hw; simp at hw
        | num n => rw [wellShapedPayload, hr] at hw; simp at hw
        | str s => rw [wellShapedPayload, hr] at hw; simp at hw
        | obj fs => rw [wellShapedPayload, hr] at hw; simp at hw
    | null => simp [wellShapedPayload] at hw
    | bool b => simp [wellShapedPayload] at hw
    | num n => simp [wellShapedPayload] at hw
    | str s => simp [wellShapedPayload] at hw
    | arr elems => simp [wellShapedPayload] at hw

/-- Counterexample to C4: this payload parses as JSON (it is a `Json`
value), yet normalisation raises (`option.get` on the non-mapping
option entry `1` raises `AttributeError`), and the handler then
answers with the 500 "Invalid response" error even though the payload
was read as JSON. -/
theorem c4_counterexample :
    extract_content (.obj [("response", .arr [.obj
        [("text", .str "hi"), ("type", .str "OPTIONS"),
         ("options", .arr [.num 1])]])]) = .error () ∧
    backendStage (.str "q") false
      (fun _ => .httpResponse 200 (.ok (.obj [("response", .arr [.obj
        [("text", .str "hi"), ("type", .str "OPTIONS"),
         ("options", .arr [.num 1])]])])))
      ⟨"u8", 0⟩ =
      .httpError 500 "Invalid response from Red Hat Console API" :=
  ⟨rfl, rfl⟩

/-- C4 (amended).  For a payload that parses as JSON: one not matching
the expected shape falls back to a string rendering of the raw
payload, and normalisation raises no error whenever the OPTIONS branch,
if entered, finds a string or list base content and a list of
mappings as options; but an entered OPTIONS branch whose options hold
a non-mapping entry raises, and the 500 "invalid backend response"
error then reaches the caller even though the payload parsed as
JSON. -/
theorem c4_graceful_degradation_amended (payload : Json) :
    (wellShapedPayload payload = false →
      extract_content payload = .ok (.str (pyStr payload))) ∧
    (safeOptionsPayload payload = true →
      ∃ content, extract_content payload = .ok content) :=
  ⟨extract_content_fallback payload, extract_content_safe_isOk payload⟩

/-- Witness for C4 (amended): a shape-mismatched payload falls back to
the raw dump, and a well-shaped OPTIONS payload with mapping options
normalises without error. -/
theorem c4_graceful_degradation_amended_witness :
    extract_content (.num 3) = .ok (.str "3") ∧
    ∃ content, extract_content (.obj [("response", .arr [.obj
        [("text", .str "Pick"), ("type", .str "OPTIONS"),
         ("options", .arr [.obj [("text", .str "A")]])]])]) = .ok content :=
  ⟨(c4_graceful_degradation_amended (.num 3)).1 rfl,
   (c4_graceful_degradation_amended _).2 rfl⟩

/-- Counterexample to C5: with an internal error injected before the
first yield, the emitted sequence is the single combined error chunk
(non-empty delta and `finish_reason "stop"` in the same frame)
followed by the sentinel — there is no separate finish chunk with an
empty delta between the error chunk and the sentinel, as the claim
requires. -/
theorem c5_counterexample :
    simulate_streaming_response_withError (.str "Hello") ⟨"u8", 1700000000⟩
        (some (0, "boom")) =
      [StreamFrame.data
         { id := "chatcmpl-" ++ "u8", object := "chat.completion.chunk",
           created := 1700000000, model := "red-hat-console-agent", index := 0,
           delta := some (.str ("Error: " ++ "boom")), finish_reason := some "stop" },
       StreamFrame.done] ∧
    ¬ ∃ (front : List StreamFrame) (errC finC : ChatChunk),
        simulate_streaming_response_withError (.str "Hello") ⟨"u8", 1700000000⟩
            (some (0, "boom")) =
          front ++ [StreamFrame.data errC, StreamFrame.data finC, StreamFrame.done] ∧
        finC.delta = none ∧ finC.finish_reason = some "stop" := by
  refine ⟨rfl, ?_⟩
  rintro ⟨front, errC, finC, h, -, -⟩
  have hlen := congrArg List.length h
  simp [simulate_streaming_response_withError, simulate_streaming_response] at hlen

/-- C5 (amended).  If an internal error occurs while the emulator is
constructing a frame, the emitted sequence ends with a single
best-effort error chunk — carrying the error message in its delta and
`finish_reason "stop"` in the same frame — followed directly by the
`[DONE]` sentinel (no separate empty-delta finish chunk); and whatever
happens, the stream terminates with the sentinel. -/
theorem c5_error_path_amended (content : Json) (meta : GenMeta) (k : Nat) (msg : String) :
    (∃ front : List StreamFrame,
      simulate_streaming_response_withError content meta (some (k, msg)) =
        front ++
          [StreamFrame.data
             { id := "chatcmpl-" ++ meta.uuid8, object := "chat.completion.chunk",
               created := meta.created, model := "red-hat-console-agent", index := 0,
               delta := some (.str ("Error: " ++ msg)), finish_reason := some "stop" },
           StreamFrame.done]) ∧
    ∀ failure : Option (Nat × String), ∃ front : List StreamFrame,
      simulate_streaming_response_withError content meta failure =
        front ++ [StreamFrame.done] := by
  constructor
  · exact ⟨(simulate_streaming_response content meta).take k, rfl⟩
  · intro failure
    rcases failure with _ | ⟨k', msg'⟩
    · exact ⟨[.data (contentChunk meta content), .data (finishChunk meta)], rfl⟩
    · refine ⟨(simulate_streaming_response content meta).take k' ++
        [.data (errorChunk meta msg')], ?_⟩
      simp [simulate_streaming_response_withError]

/-- C6.  Bearer authentication succeeds iff the header is present,
starts with the literal "Bearer " prefix, and the remainder equals the
configured token; every failure is a 401 carrying a `WWW-Authenticate:
Bearer` header with the case's distinct detail message, and the
`/v1/chat` handler then answers 401 without consulting the backend. -/
theorem c6_bearer_auth (required : String) (authorization : Option String) :
    ((∃ t, verify_bearer_token required authorization = .ok t) ↔
      (∃ a, authorization = some a ∧ pyStartsWith a "Bearer " = true ∧
        pyDropChars a 7 = required)) ∧
    (∀ e, verify_bearer_token required authorization = .error e →
      e.status_code = 401 ∧ e.wwwAuthenticateBearer = true ∧
      (e.detail = "Authorization header required" ∨
       e.detail = "Authorization header must start with 'Bearer '" ∨
       e.detail = "Invalid bearer token") ∧
      ∀ messages stream backend meta,
        chat_completion required authorization messages stream backend meta =
          .httpError 401 e.detail) ∧
    (authorization = none →
      verify_bearer_token required authorization =
        .error ⟨401, "Authorization header required", true⟩) ∧
    (∀ a, authorization = some a → a ≠ "" → pyStartsWith a "Bearer " = false →
      verify_bearer_token required authorization =
        .error ⟨401, "Authorization header must start with 'Bearer '", true⟩) ∧
    (∀ a, authorization = some a → pyStartsWith a "Bearer " = true →
      pyDropChars a 7 ≠ required →
      verify_bearer_token required authorization =
        .error ⟨401, "Invalid bearer token", true⟩) ∧
    ("Authorization header required" ≠
        "Authorization header must start with 'Bearer '" ∧
     "Authorization header required" ≠ "Invalid bearer token" ∧
     "Authorization header must start with 'Bearer '" ≠ "Invalid bearer token") := by
  have hempty : pyStartsWith "" "Bearer " = false := by decide
  refine ⟨?_, ?_, ?_, ?_, ?_, by decide, by decide, by decide⟩
  · constructor
    · rintro ⟨t, ht⟩
      rcases authorization with _ | a
      · simp [verify_bearer_token] at ht
      · refine ⟨a, rfl, ?_⟩
        by_cases h0 : a = ""
        · subst h0; simp [verify_bearer_token] at ht
        · by_cases h1 : pyStartsWith a "Bearer " = true
          · by_cases h2 : pyDropChars a 7 = required
            · exact ⟨h1, h2⟩
            · simp [verify_bearer_token, h0, h1, h2] at ht
          · simp [verify_bearer_token, h0, h1] at ht
    · rintro ⟨a, rfl, h1, h2⟩
      have h0 : a ≠ "" := by
        rintro rfl
        rw [hempty] at h1
        exact Bool.noConfusion h1
      exact ⟨pyDropChars a 7, by simp [verify_bearer_token, h0, h1, h2]⟩
  · intro e he
    have hprops : e.status_code = 401 ∧ e.wwwAuthenticateBearer = true ∧
        (e.detail = "Authorization header required" ∨
         e.detail = "Authorization header must start with 'Bearer '" ∨
         e.detail = "Invalid bearer token") := by
      rcases authorization with _ | a
      · rw [verify_bearer_token] at he
        have h3 := Except.error.inj he
        subst h3
        exact ⟨rfl, rfl, Or.inl rfl⟩
      · by_cases h0 : a = ""
        · subst h0
          have hv : verify_bearer_token required (some "") =
              .error ⟨401, "Authorization header required", true⟩ := rfl
          rw [hv] at he
          have h3 := Except.error.inj he
          subst h3
          exact ⟨rfl, rfl, Or.inl rfl⟩
        · by_cases h1 : pyStartsWith a "Bearer " = true
          · by_cases h2 : pyDropChars a 7 = required
            · have hv : verify_bearer_token required (some a) =
                  .ok (pyDropChars a 7) := by
                simp [verify_bearer_token, h0, h1, h2]
              rw [hv] at he
              exact Except.noConfusion he
            · have hv : verify_bearer_token required (some a) =
                  .error ⟨401, "Invalid bearer token", true⟩ := by
                simp [verify_bearer_token, h0, h1, h2]
              rw [hv] at he
              have h3 := Except.error.inj he
              subst h3
              exact ⟨rfl, rfl, Or.inr (Or.inr rfl)⟩
          · have hv : verify_bearer_token required (some a) =
                .error ⟨401, "Authorization header must start with 'Bearer '", true⟩ := by
              simp [verify_bearer_token, h0, h1]
            rw [hv] at he
            have h3 := Except.error.inj he
            subst h3
            exact ⟨rfl, rfl, Or.inr (Or.inl rfl)⟩
    refine ⟨hprops.1, hprops.2.1, hprops.2.2, ?_⟩
    intro messages stream backend meta
    simp [chat_completion, he, hprops.1]
  · rintro rfl
    rfl
  · rintro a rfl hne hsw
    simp [verify_bearer_token, hne, hsw]
  · rintro a rfl hsw hdrop
    have h0 : a ≠ "" := by
      rintro rfl
      rw [hempty] at hsw
      exact Bool.noConfusion hsw
    simp [verify_bearer_token, h0, hsw, hdrop]

/-- Witness for C6: the three failure cases at concrete header values. -/
theorem c6_bearer_auth_witness :
    verify_bearer_token "secret" none =
      .error ⟨401, "Authorization header required", true⟩ ∧
    verify_bearer_token "secret" (some "Token abc") =
      .error ⟨401, "Authorization header must start with 'Bearer '", true⟩ ∧
    verify_bearer_token "secret" (some "Bearer wrong") =
      .error ⟨401, "Invalid bearer token", true⟩ :=
  ⟨(c6_bearer_auth "secret" none).2.2.1 rfl,
   (c6_bearer_auth "secret" (some "Token abc")).2.2.2.1 "Token abc" rfl
     (by decide) (by decide),
   (c6_bearer_auth "secret" (some "Bearer wrong")).2.2.2.2.1 "Bearer wrong" rfl
     (by decide) (by decide)⟩

/-- C7.  An authenticated request whose messages (each carrying a
`role` key, per the ChatRequest data model) contain no user-role
message is rejected with the 400 "No user message found" error, for
every backend and stream flag — so no backend call is made. -/
theorem c7_no_user_message_400 (required : String) (authorization : Option String)
    (messages : List Msg)
    (hauth : ∃ t, verify_bearer_token required authorization = .ok t)
    (hroles : ∀ m ∈ messages, (lookupKey m "role").isSome)
    (hnouser : userMessages messages = []) :
    ∀ stream backend meta,
      chat_completion required authorization messages stream backend meta =
        .httpError 400 "No user message found" := by
  intro stream backend meta
  obtain ⟨t, ht⟩ := hauth
  have hq : extract_query messages = .error .noUserMessage := by
    simp [extract_query, collectUserMessages_eq_filter messages hroles, hnouser]
  simp [chat_completion, ht, hq]

/-- Witness for C7 at a concrete assistant-only request. -/
theorem c7_no_user_message_400_witness :
    chat_completion "secret" (some "Bearer secret")
        [[("role", Json.str "assistant"), ("content", Json.str "hi")]]
        false (fun _ => BackendResult.noResponse) ⟨"u8", 0⟩ =
      .httpError 400 "No user message found" :=
  c7_no_user_message_400 "secret" (some "Bearer secret")
    [[("role", Json.str "assistant"), ("content", Json.str "hi")]]
    ⟨"secret", rfl⟩ (by decide) rfl false (fun _ => BackendResult.noResponse) ⟨"u8", 0⟩

/-- C8.  With two or more user-role messages (all messages carrying a
`role` key), the query handed to the backend stage is exactly the
`content` of the last user-role message: the handler's outcome is the
backend stage applied to that content, discarding all earlier
messages. -/
theorem c8_last_user_message_query (required : String) (authorization : Option String)
    (messages : List Msg) (lastUser : Msg) (content : Json)
    (hauth : ∃ t, verify_bearer_token required authorization = .ok t)
    (hroles : ∀ m ∈ messages, (lookupKey m "role").isSome)
    (_hcount : 2 ≤ (userMessages messages).length)
    (hlast : (userMessages messages).getLast? = some lastUser)
    (hcontent : lookupKey lastUser "content" = some content) :
    extract_query messages = .ok content ∧
    ∀ stream backend meta,
      chat_completion required authorization messages stream backend meta =
        backendStage content stream backend meta := by
  obtain ⟨t, ht⟩ := hauth
  have hq : extract_query messages = .ok content := by
    simp [extract_query, collectUserMessages_eq_filter messages hroles, hlast, hcontent]
  exact ⟨hq, fun stream backend meta => by simp [chat_completion, ht, hq]⟩

/-- Witness for C8: of two user messages, the second one's content is
the extracted query. -/
theorem c8_last_user_message_query_witness :
    extract_query
        [[("role", Json.str "user"), ("content", Json.str "first")],
         [("role", Json.str "assistant"), ("content", Json.str "mid")],
         [("role", Json.str "user"), ("content", Json.str "second")]] =
      .ok (Json.str "second") :=
  (c8_last_user_message_query "secret" (some "Bearer secret")
    [[("role", Json.str "user"), ("content", Json.str "first")],
     [("role", Json.str "assistant"), ("content", Json.str "mid")],
     [("role", Json.str "user"), ("content", Json.str "second")]]
    [("role", Json.str "user"), ("content", Json.str "second")]
    (Json.str "second")
    ⟨"secret", rfl⟩ (by decide) (by decide) rfl rfl).1

/-- C9.  When the backend call yields `None` (network-level error) or
any non-200 HTTP status, the handler answers 500 with the
backend-unavailable detail, for either stream flag; both failure kinds
collapse to the same error. -/
theorem c9_backend_failure_500 (required : String) (authorization : Option String)
    (messages : List Msg) (stream : Bool) (backend : Json → BackendResult)
    (meta : GenMeta) (query : Json)
    (hauth : ∃ t, verify_bearer_token required authorization = .ok t)
    (hquery : extract_query messages = .ok query)
    (hbackend : backend query = .noResponse ∨
      ∃ status body, backend query = .httpResponse status body ∧ status ≠ 200) :
    chat_completion required authorization messages stream backend meta =
      .httpError 500 "Failed to get response from Red Hat Console API" ∧
    backendStage query stream backend meta =
      .httpError 500 "Failed to get response from Red Hat Console API" := by
  obtain ⟨t, ht⟩ := hauth
  have hstage : backendStage query stream backend meta =
      .httpError 500 "Failed to get response from Red Hat Console API" := by
    rcases hbackend with hb | ⟨status, body, hb, hs⟩
    · simp [backendStage, hb]
    · simp [backendStage, hb, hs]
  exact ⟨by simp [chat_completion, ht, hquery, hstage], hstage⟩

/-- Witness for C9: a 503 backend response, streaming requested. -/
theorem c9_backend_failure_500_witness :
    chat_completion "secret" (some "Bearer secret")
        [[("role", Json.str "user"), ("content", Json.str "q")]]
        true (fun _ => BackendResult.httpResponse 503 (.ok .null)) ⟨"u8", 0⟩ =
      .httpError 500 "Failed to get response from Red Hat Console API" :=
  (c9_backend_failure_500 "secret" (some "Bearer secret")
    [[("role", Json.str "user"), ("content", Json.str "q")]]
    true (fun _ => BackendResult.httpResponse 503 (.ok .null)) ⟨"u8", 0⟩
    (Json.str "q")
    ⟨"secret", rfl⟩ rfl
    (Or.inr ⟨503, .ok .null, rfl, by decide⟩)).1

/-- C10.  An authenticated request in which some message lacks a
`role` key, or in which the last user-role message lacks a `content`
key, makes query extraction raise an uncaught `KeyError`: the handler
ends in the 500-class server error, not the 400 "No user message
found" validation error. -/
theorem c10_keyerror_server_error (required : String) (authorization : Option String)
    (messages : List Msg)
    (hauth : ∃ t, verify_bearer_token required authorization = .ok t)
    (hbad : (∃ m ∈ messages, lookupKey m "role" = none) ∨
      ((∀ m ∈ messages, (lookupKey m "role").isSome) ∧
       ∃ lastUser, (userMessages messages).getLast? = some lastUser ∧
         lookupKey lastUser "content" = none)) :
    extract_query messages = .error .keyError ∧
    ∀ stream backend meta,
      chat_completion required authorization messages stream backend meta =
        .serverError ∧
      chat_completion required authorization messages stream backend meta ≠
        .httpError 400 "No user message found" := by
  obtain ⟨t, ht⟩ := hauth
  have hq : extract_query messages = .error .keyError := by
    rcases hbad with h | ⟨hroles, lastUser, hlast, hcontent⟩
    · simp [extract_query, collectUserMessages_missing_role messages h]
    · simp [extract_query, collectUserMessages_eq_filter messages hroles, hlast, hcontent]
  refine ⟨hq, fun stream backend meta => ⟨by simp [chat_completion, ht, hq], ?_⟩⟩
  simp [chat_completion, ht, hq]

/-- Witness for C10: a message with a `content` but no `role` key. -/
theorem c10_keyerror_server_error_witness :
    extract_query [[("content", Json.str "x")]] = .error .keyError :=
  (c10_keyerror_server_error "secret" (some "Bearer secret")
    [[("content", Json.str "x")]]
    ⟨"secret", rfl⟩
    (Or.inl ⟨[("content", Json.str "x")], List.mem_cons_self _ _, rfl⟩)).1
